import Mathlib

/-!
# Verification of the Product catalog CRUD service

Shallow embedding of the route layer of the Product store service
(`service/routes.py`) together with a model of its persistence
collaborator (`service/models.py`, present in the repository only through
its callers and tests; its operations are modelled from the
description in the specification of the collaborator).

Handlers are embedded as pure functions from the request data (query
parameters, Content-Type header, JSON body, path id) and the store state
to a response and, for writes, a new store state.  An uncaught exception
(Flask `abort`, or an exception propagating out of a handler) is embedded
as the error side of an `Except`.
-/

namespace ProductService

/-- A JSON value, as far as the payloads of the service need: strings, numbers,
booleans and null. -/
inductive JsonVal where
  | str (s : String)
  | num (n : Int)
  | bool (b : Bool)
  | null
  deriving DecidableEq, Repr

/-- A JSON object: a list of field/value pairs.  Request bodies and
serialized entities are objects; `[]` is the empty object `{}`. -/
abbrev Json := List (String × JsonVal)

/-- Look a field up in a JSON object (first occurrence). -/
def getField (data : Json) (key : String) : Option JsonVal :=
  (data.find? (fun kv => kv.1 == key)).map (·.2)

/-- Modelled from the spec: the fixed, closed set of enumerated category
names.  The spec names `CLOTHS` explicitly (§8 scenario 7); the remaining
names are immaterial to every claim, which only distinguish members of
the set from non-members. -/
def categoryNames : List String :=
  ["UNKNOWN", "CLOTHS", "FOOD", "HOUSEWARES", "AUTOMOTIVE", "TOOLS"]

/-- Modelled from the spec: `getattr(Category, s)` — resolving a raw
string to an enumerated category.  It succeeds exactly on the enumerated
names and fails (an `AttributeError` in the source) on any other string.
A category is represented by its name. -/
def categoryFromName (s : String) : Option String :=
  if s ∈ categoryNames then some s else none

/-- The Product entity (spec §3): id assigned by the persistence layer,
name, free-text description, decimal price (carried as its
decimal-preserving string form), availability flag, enumerated category
(represented by its name). -/
structure Product where
  id : Nat
  name : String
  description : String
  price : String
  available : Bool
  category : String
  deriving DecidableEq, Repr

/-- `Product()` — a blank entity before deserialization; `create`
overwrites the id. -/
def Product.new : Product :=
  { id := 0, name := "", description := "", price := "", available := false
    category := "UNKNOWN" }

/-- `serialize()` — the entity JSON shape `{id, name, description, price,
available, category}` (spec §6): category as its name string, price as a
decimal-preserving string. -/
def Product.serialize (p : Product) : Json :=
  [ ("id", JsonVal.num (Int.ofNat p.id)),
    ("name", JsonVal.str p.name),
    ("description", JsonVal.str p.description),
    ("price", JsonVal.str p.price),
    ("available", JsonVal.bool p.available),
    ("category", JsonVal.str p.category) ]

/-- A price field accepts a decimal-preserving string or a number
(spec §6: "price serializes as a decimal-preserving string/number"). -/
def readPrice : JsonVal → Option String
  | JsonVal.str s => some s
  | JsonVal.num n => some (toString n)
  | _ => none

/-- A text field must be a JSON string. -/
def readStr : JsonVal → Option String
  | JsonVal.str s => some s
  | _ => none

/-- A boolean field must be a JSON boolean. -/
def readBool : JsonVal → Option Bool
  | JsonVal.bool b => some b
  | _ => none

/-- Deserialization failure: the type error the implementation raises
on a missing required field or a wrongly typed field (spec §4.5 note),
caught by the update handler and mapped to 400. -/
inductive DeserError where
  | typeError
  deriving DecidableEq, Repr

/-- Modelled from the spec: `Product.deserialize(data)` — populate the
mutable fields of the entity from a JSON object, never touching `id`.
Deserialization fails if `name` is missing or any present field has the
wrong type (spec §4.2); the other fields are optional (spec §3:
description is "free text; optional") and keep their previous value when
absent.  `category` must resolve to an enumerated name (spec §3
invariant). -/
def Product.deserialize (self : Product) (data : Json) : Except DeserError Product :=
  match getField data "name" with
  | none => Except.error DeserError.typeError
  | some nv =>
    match readStr nv with
    | none => Except.error DeserError.typeError
    | some n =>
      let dv := (getField data "description").getD (JsonVal.str self.description)
      let pv := (getField data "price").getD (JsonVal.str self.price)
      let av := (getField data "available").getD (JsonVal.bool self.available)
      let cv := (getField data "category").getD (JsonVal.str self.category)
      match readStr dv, readPrice pv, readBool av, readStr cv with
      | some d, some pr, some b, some c =>
        match categoryFromName c with
        | some cat =>
          Except.ok { self with name := n, description := d, price := pr,
                                available := b, category := cat }
        | none => Except.error DeserError.typeError
      | _, _, _, _ => Except.error DeserError.typeError

/-- Modelled from the spec: the state of the persistence collaborator — the
persisted Products in the natural order of the collaborator, plus the id
counter used to assign fresh unique ids on creation. -/
structure Store where
  products : List Product
  nextId : Nat
  deriving DecidableEq, Repr

/-- Store well-formedness: every persisted id is below the id counter
(so freshly assigned ids are unique — spec §3 invariant). -/
def Store.wf (st : Store) : Prop :=
  ∀ p ∈ st.products, p.id < st.nextId

instance (st : Store) : Decidable st.wf := by
  unfold Store.wf; infer_instance

/-- Modelled from the spec: `Product.all()` — every persisted Product, in
the natural order of the collaborator. -/
def Store.all (st : Store) : List Product :=
  st.products

/-- Modelled from the spec: `Product.find(id)` — lookup by id. -/
def Store.find (st : Store) (i : Nat) : Option Product :=
  st.products.find? (fun p => p.id == i)

/-- Modelled from the spec: `Product.find_by_name(name)` — exact-match
lookup against the persisted name field. -/
def Store.find_by_name (st : Store) (n : String) : List Product :=
  st.products.filter (fun p => p.name == n)

/-- Modelled from the spec: `Product.find_by_category(cat)` — entities
whose category matches the (already resolved) enumerated category. -/
def Store.find_by_category (st : Store) (c : String) : List Product :=
  st.products.filter (fun p => p.category == c)

/-- Modelled from the spec: the boolean-ish coercion applied to the raw
`available` query string — truthy/falsy coercion of a boolean-like word,
pinned by spec §8 property 6: `"true"` coerces to true and `"false"`
to false.  The word list covers the usual truthy spellings; any other
string is falsy. -/
def boolishCoerce (s : String) : Bool :=
  ["true", "True", "TRUE", "yes", "1"].contains s

/-- Modelled from the spec: `Product.find_by_availability(available)` —
the supplied string is interpreted as a boolean-ish value and matched
against the availability flag (spec §4.3). -/
def Store.find_by_availability (st : Store) (s : String) : List Product :=
  st.products.filter (fun p => p.available == boolishCoerce s)

/-- Modelled from the spec: `product.create()` — persist a new entity,
assigning the next fresh id. -/
def Store.create (st : Store) (p : Product) : Product × Store :=
  let p2 := { p with id := st.nextId }
  (p2, { products := st.products ++ [p2], nextId := st.nextId + 1 })

/-- Modelled from the spec: `product.update()` — persist changed field
values of an existing entity, located by id. -/
def Store.update (st : Store) (p : Product) : Store :=
  { st with products := st.products.map (fun q => if q.id == p.id then p else q) }

/-- Modelled from the spec: `product.delete()` — remove the entity from
the store. -/
def Store.delete (st : Store) (i : Nat) : Store :=
  { st with products := st.products.filter (fun p => p.id != i) }

/-- An HTTP response from a handler: either a JSON object body or a JSON
array body, with its status code. -/
inductive Response where
  | obj (body : Json) (code : Nat)
  | arr (body : List Json) (code : Nat)
  deriving DecidableEq, Repr

/-- A request that does not produce a handler response: a Flask `abort`
(status code and message) or an exception propagating uncaught out of
the handler. -/
inductive Failure where
  | aborted (code : Nat) (msg : String)
  | unhandled
  deriving DecidableEq, Repr

/-- `check_content_type(content_type)` (routes.py:49-65): aborts 415 with
`"Content-Type must be <type>"` when the Content-Type header is absent,
returns silently when it equals the required type, and aborts with the
same 415 otherwise.  `header` is the Content-Type header of the request,
`none` when absent. -/
def check_content_type (content_type : String) (header : Option String) :
    Except (Nat × String) Unit :=
  match header with
  | none => Except.error (415, "Content-Type must be " ++ content_type)
  | some h =>
    if h == content_type then Except.ok ()
    else Except.error (415, "Content-Type must be " ++ content_type)

/-- Python truthiness of an optional query-parameter string: absent and
empty strings are falsy. -/
def truthy : Option String → Bool
  | none => false
  | some s => s != ""

/-- `list_products()` (routes.py:101-130): dispatch on the truthiness of
the `name`, `category`, `available` query parameters, in that order;
the category branch resolves the raw string with
`getattr(Category, category)`, which raises on an unrecognized name. -/
def list_products (name category available : Option String) (st : Store) :
    Except Failure Response :=
  if truthy name then
    Except.ok (Response.arr ((st.find_by_name (name.getD "")).map Product.serialize) 200)
  else if truthy category then
    match categoryFromName (category.getD "") with
    | some cat =>
      Except.ok (Response.arr ((st.find_by_category cat).map Product.serialize) 200)
    | none => Except.error Failure.unhandled
  else if truthy available then
    Except.ok (Response.arr
      ((st.find_by_availability (available.getD "")).map Product.serialize) 200)
  else
    Except.ok (Response.arr (st.all.map Product.serialize) 200)

/-- `get_products(product_id)` (routes.py:138-147): find by id; not found
gives `{}` with 404, found gives the serialized entity with 200. -/
def get_products (product_id : Nat) (st : Store) : Response :=
  match st.find product_id with
  | none => Response.obj [] 404
  | some p => Response.obj p.serialize 200

/-- `create_products()` (routes.py:71-94): content-type guard, then
deserialize the body into a blank Product (a deserialization error is
not caught locally and propagates), persist it (assigning the id), and
answer 201 with the serialized entity and the placeholder Location
header `"/"`. -/
def create_products (header : Option String) (body : Json) (st : Store) :
    Except Failure (Response × String × Store) :=
  match check_content_type "application/json" header with
  | Except.error (c, m) => Except.error (Failure.aborted c m)
  | Except.ok _ =>
    match Product.new.deserialize body with
    | Except.error _ => Except.error Failure.unhandled
    | Except.ok p =>
      let res := st.create p
      Except.ok (Response.obj res.1.serialize 201, "/", res.2)

/-- `update_products(product_id)` (routes.py:156-173): content-type
guard, find by id (`{}` with 404 when absent), then deserialize the body
onto the found entity; a type error is caught and answered `{}` with
400, otherwise the change is persisted and answered 200 with the
serialized updated entity. -/
def update_products (product_id : Nat) (header : Option String) (body : Json)
    (st : Store) : Except Failure (Response × Store) :=
  match check_content_type "application/json" header with
  | Except.error (c, m) => Except.error (Failure.aborted c m)
  | Except.ok _ =>
    match st.find product_id with
    | none => Except.ok (Response.obj [] 404, st)
    | some prod =>
      match prod.deserialize body with
      | Except.error _ => Except.ok (Response.obj [] 400, st)
      | Except.ok p2 => Except.ok (Response.obj p2.serialize 200, st.update p2)

/-- `delete_products(product_id)` (routes.py:180-196): find by id (`{}`
with 404 when absent), else delete and answer `{}` with 204. -/
def delete_products (product_id : Nat) (st : Store) : Response × Store :=
  match st.find product_id with
  | none => (Response.obj [] 404, st)
  | some _ => (Response.obj [] 204, st.delete product_id)

end ProductService

namespace ProductService

/-- A sample available product, used in concrete witnesses. -/
def sampleAvail : Product :=
  { id := 1, name := "hat", description := "red hat", price := "9.99",
    available := true, category := "CLOTHS" }

/-- A sample unavailable product, used in concrete witnesses. -/
def sampleUnavail : Product :=
  { id := 2, name := "pot", description := "big pot", price := "5.00",
    available := false, category := "HOUSEWARES" }

/-- A sample store holding one available and one unavailable product. -/
def sampleStore : Store :=
  { products := [sampleAvail, sampleUnavail], nextId := 3 }

/-- The sample creation payload of spec §8 scenario 7. -/
def hatBody : Json :=
  [ ("name", JsonVal.str "Hat"), ("description", JsonVal.str "Red hat"),
    ("price", JsonVal.str "9.99"), ("available", JsonVal.bool true),
    ("category", JsonVal.str "CLOTHS") ]

/-- A full-replacement JSON body carrying all five mutable fields. -/
def fullBody (n d pr : String) (av : Bool) (c : String) : Json :=
  [ ("name", JsonVal.str n), ("description", JsonVal.str d),
    ("price", JsonVal.str pr), ("available", JsonVal.bool av),
    ("category", JsonVal.str c) ]

/-- The entity obtained by deserializing `hatBody` into a blank Product. -/
def hatProduct : Product :=
  { id := 0, name := "Hat", description := "Red hat", price := "9.99",
    available := true, category := "CLOTHS" }

end ProductService

open ProductService

/-- C3: for every required media type string, the Content-Type guard
fails with HTTP 415 and the message naming the required type when the
Content-Type header is absent, fails with the same 415 when the header
is present but differs from the required type, and passes (with no side
effect: it is a pure check) when the header equals the required type. -/
theorem check_content_type_guard (ct : String) (header : Option String) :
    (header = none →
      check_content_type ct header
        = Except.error (415, "Content-Type must be " ++ ct)) ∧
    (∀ h, header = some h → h ≠ ct →
      check_content_type ct header
        = Except.error (415, "Content-Type must be " ++ ct)) ∧
    check_content_type ct (some ct) = Except.ok () := by
  refine ⟨fun hn => by rw [hn]; rfl, fun h hh hne => ?_, ?_⟩
  · rw [hh]; simp [check_content_type, hne]
  · simp [check_content_type]

/-- C3 witness: the guard at the required type `application/json`, for a
missing header, a `text/plain` header, and a matching header. -/
theorem check_content_type_guard_witness :
    (check_content_type "application/json" none
      = Except.error (415, "Content-Type must be " ++ "application/json")) ∧
    (check_content_type "application/json" (some "text/plain")
      = Except.error (415, "Content-Type must be " ++ "application/json")) ∧
    check_content_type "application/json" (some "application/json")
      = Except.ok () :=
  ⟨(check_content_type_guard "application/json" none).1 rfl,
   (check_content_type_guard "application/json" (some "text/plain")).2.1
     "text/plain" rfl (by decide),
   (check_content_type_guard "application/json" (some "application/json")).2.2⟩

/-- C8: for every id with no persisted Product, the read handler answers
`{}` with 404, the update handler (called with the correct Content-Type
and any body) answers `{}` with 404 leaving the store unchanged, and the
delete handler answers `{}` with 404 leaving the store unchanged. -/
theorem handlers_not_found_404 (pid : Nat) (body : Json) (st : Store)
    (hnone : st.find pid = none) :
    get_products pid st = Response.obj [] 404 ∧
    update_products pid (some "application/json") body st
      = Except.ok (Response.obj [] 404, st) ∧
    delete_products pid st = (Response.obj [] 404, st) := by
  refine ⟨?_, ?_, ?_⟩ <;>
    simp [get_products, update_products, delete_products, check_content_type,
      hnone]

/-- C8 witness: id 22 is not in the sample store; read, update and delete
all answer 404 with `{}` and leave the store untouched. -/
theorem handlers_not_found_404_witness :
    sampleStore.find 22 = none ∧
    (get_products 22 sampleStore = Response.obj [] 404 ∧
     update_products 22 (some "application/json") hatBody sampleStore
       = Except.ok (Response.obj [] 404, sampleStore) ∧
     delete_products 22 sampleStore = (Response.obj [] 404, sampleStore)) :=
  ⟨by decide, handlers_not_found_404 22 hatBody sampleStore (by decide)⟩

/-- C6: for every update request targeting an existing id whose body
fails deserialization, the update handler answers `{}` (empty body) with
HTTP 400 and leaves the store unchanged; moreover the empty object `{}`
always fails deserialization (its required `name` field is missing). -/
theorem update_bad_body_400 (pid : Nat) (st : Store) (body : Json)
    (prod : Product) (hfind : st.find pid = some prod)
    (hde : prod.deserialize body = Except.error DeserError.typeError) :
    update_products pid (some "application/json") body st
      = Except.ok (Response.obj [] 400, st) ∧
    prod.deserialize ([] : Json) = Except.error DeserError.typeError := by
  constructor
  · simp [update_products, check_content_type, hfind, hde]
  · rfl

/-- C6 witness: updating sample product 1 with a body whose `name` field
is wrongly typed yields `{}` with 400 and an unchanged store. -/
theorem update_bad_body_400_witness :
    sampleStore.find 1 = some sampleAvail ∧
    sampleAvail.deserialize [("name", JsonVal.bool true)]
      = Except.error DeserError.typeError ∧
    (update_products 1 (some "application/json")
        [("name", JsonVal.bool true)] sampleStore
      = Except.ok (Response.obj [] 400, sampleStore) ∧
     sampleAvail.deserialize ([] : Json)
       = Except.error DeserError.typeError) :=
  ⟨by decide, rfl,
   update_bad_body_400 1 sampleStore [("name", JsonVal.bool true)] sampleAvail
     (by decide) rfl⟩

/-- C10: the list handler tests query parameters for truthiness, not
presence: a parameter supplied as the empty string behaves exactly as an
absent one, for each of `name`, `category` and `available`, whatever the
other parameters and the store are (so an empty value falls through to
the next filter or to the unfiltered list-all). -/
theorem empty_params_fall_through (x y : Option String) (st : Store) :
    list_products (some "") x y st = list_products none x y st ∧
    list_products x (some "") y st = list_products x none y st ∧
    list_products x y (some "") st = list_products x y none st := by
  refine ⟨?_, ?_, ?_⟩ <;> simp [list_products, truthy]

/-- Looking a fresh id up after appending a product carrying it finds
exactly that product (all previously persisted ids are smaller). -/
theorem find_append_fresh (l : List Product) (p : Product) (n : Nat)
    (hl : ∀ q ∈ l, q.id < n) (hp : p.id = n) :
    (l ++ [p]).find? (fun q => q.id == n) = some p := by
  induction l with
  | nil => simp [List.find?_cons, hp]
  | cons a t ih =>
    have ha : (a.id == n) = false := by
      simp [Nat.ne_of_lt (hl a (List.mem_cons_self a t))]
    simp only [List.cons_append, List.find?_cons, ha]
    exact ih (fun q hq => hl q (List.mem_cons_of_mem a hq))

/-- Looking an id up after replacing the entity with that id in place
yields the replacement. -/
theorem find_update_eq (l : List Product) (i : Nat) (prod p2 : Product)
    (hfind : l.find? (fun q => q.id == i) = some prod) (hid : p2.id = i) :
    (l.map (fun q => if q.id == p2.id then p2 else q)).find?
        (fun q => q.id == i) = some p2 := by
  induction l with
  | nil => simp at hfind
  | cons a t ih =>
    by_cases h : a.id = i
    · simp only [List.map_cons]
      have he : (if a.id == p2.id then p2 else a) = p2 := by simp [h, hid]
      rw [he]
      simp [List.find?_cons, hid]
    · rw [List.find?_cons] at hfind
      have hneg : (a.id == i) = false := by simp [h]
      rw [hneg] at hfind
      simp only [List.map_cons]
      have he : (if a.id == p2.id then p2 else a) = a := by simp [hid, h]
      rw [he]
      simp only [List.find?_cons, hneg]
      exact ih hfind

/-- Looking an id up after filtering that id out finds nothing. -/
theorem find_delete_none (l : List Product) (i : Nat) :
    (l.filter (fun p => p.id != i)).find? (fun p => p.id == i) = none := by
  rw [List.find?_eq_none]
  intro x hx
  have hx2 := (List.mem_filter.mp hx).2
  simp at hx2 ⊢
  exact hx2

/-- C7: deleting a persisted Product answers `{}` (empty body) with HTTP
204 and removes the entity from the store; a subsequent read of the same
id answers `{}` with 404, and a subsequent delete of the same id also
answers `{}` with 404 leaving the store as it was — an idempotent
terminal state for the caller. -/
theorem delete_then_read_404 (st : Store) (p : Product)
    (hp : p ∈ st.products) :
    delete_products p.id st = (Response.obj [] 204, st.delete p.id) ∧
    p ∉ (st.delete p.id).products ∧
    get_products p.id (st.delete p.id) = Response.obj [] 404 ∧
    delete_products p.id (st.delete p.id)
      = (Response.obj [] 404, st.delete p.id) := by
  have hsome : ∃ q, st.find p.id = some q := by
    have h1 : (st.products.find? (fun q => q.id == p.id)).isSome := by
      rw [List.find?_isSome]
      exact ⟨p, hp, by simp⟩
    exact Option.isSome_iff_exists.mp h1
  obtain ⟨q, hq⟩ := hsome
  have hdel : (st.delete p.id).find p.id = none := by
    simp only [Store.delete, Store.find]
    exact find_delete_none st.products p.id
  refine ⟨?_, ?_, ?_, ?_⟩
  · simp [delete_products, hq]
  · intro hmem
    have := (List.mem_filter.mp hmem).2
    simp at this
  · simp [get_products, hdel]
  · simp [delete_products, hdel]

/-- C7 witness: deleting product 1 of the sample store gives 204 and an
empty-body response, after which reading and deleting id 1 give 404. -/
theorem delete_then_read_404_witness :
    sampleAvail ∈ sampleStore.products ∧
    (delete_products sampleAvail.id sampleStore
       = (Response.obj [] 204, sampleStore.delete sampleAvail.id) ∧
     sampleAvail ∉ (sampleStore.delete sampleAvail.id).products ∧
     get_products sampleAvail.id (sampleStore.delete sampleAvail.id)
       = Response.obj [] 404 ∧
     delete_products sampleAvail.id (sampleStore.delete sampleAvail.id)
       = (Response.obj [] 404, sampleStore.delete sampleAvail.id)) :=
  ⟨by decide, delete_then_read_404 sampleStore sampleAvail (by decide)⟩

/-- C4: posting any payload that deserializes successfully, with
Content-Type `application/json`, answers HTTP 201 whose body is the
serialized created entity carrying the freshly assigned id (and the
placeholder Location header), and reading that id back from the
resulting store answers HTTP 200 with the identical serialized entity —
the create/read round-trip. -/
theorem create_read_roundtrip (body : Json) (st : Store) (p : Product)
    (hwf : st.wf) (hde : Product.new.deserialize body = Except.ok p) :
    create_products (some "application/json") body st
      = Except.ok
          (Response.obj (Product.serialize { p with id := st.nextId }) 201, "/",
           { products := st.products ++ [{ p with id := st.nextId }],
             nextId := st.nextId + 1 }) ∧
    get_products st.nextId
        { products := st.products ++ [{ p with id := st.nextId }],
          nextId := st.nextId + 1 }
      = Response.obj (Product.serialize { p with id := st.nextId }) 200 := by
  constructor
  · simp [create_products, check_content_type, hde, Store.create]
  · have h := find_append_fresh st.products { p with id := st.nextId } st.nextId
      (fun q hq => hwf q hq) rfl
    simp only [get_products, Store.find]
    rw [h]

/-- C4 witness: the spec §8 scenario-7 payload posted to an empty store
is created with id 0 and reads back identically. -/
theorem create_read_roundtrip_witness :
    (Store.mk [] 0).wf ∧
    Product.new.deserialize hatBody = Except.ok hatProduct ∧
    (create_products (some "application/json") hatBody (Store.mk [] 0)
       = Except.ok
           (Response.obj (Product.serialize { hatProduct with id := 0 }) 201,
            "/",
            { products := [] ++ [{ hatProduct with id := 0 }],
              nextId := 0 + 1 }) ∧
     get_products 0
         { products := [] ++ [{ hatProduct with id := 0 }], nextId := 0 + 1 }
       = Response.obj (Product.serialize { hatProduct with id := 0 }) 200) :=
  ⟨by decide, rfl,
   create_read_roundtrip hatBody (Store.mk [] 0) hatProduct (by decide) rfl⟩

/-- C5: updating an existing id with a full replacement body (all five
mutable fields present, the category naming an enumerated value)
replaces name, description, price, available and category from the body
while keeping the id of the found entity (which equals the requested
id), persists the change — the updated store finds the new field values
under that id — and answers HTTP 200 with the serialized updated
entity. -/
theorem update_replaces_all_fields (pid : Nat) (st : Store) (prod : Product)
    (n d pr : String) (av : Bool) (c : String)
    (hfind : st.find pid = some prod) (hc : c ∈ categoryNames) :
    prod.id = pid ∧
    update_products pid (some "application/json") (fullBody n d pr av c) st
      = Except.ok
          (Response.obj
            (Product.serialize
              { id := prod.id, name := n, description := d, price := pr,
                available := av, category := c }) 200,
           st.update
             { id := prod.id, name := n, description := d, price := pr,
               available := av, category := c }) ∧
    (st.update
        { id := prod.id, name := n, description := d, price := pr,
          available := av, category := c }).find pid
      = some
          { id := prod.id, name := n, description := d, price := pr,
            available := av, category := c } := by
  have hid : prod.id = pid := by
    have h1 := List.find?_some hfind
    simpa using h1
  have hde : prod.deserialize (fullBody n d pr av c)
      = Except.ok { id := prod.id, name := n, description := d, price := pr,
                    available := av, category := c } := by
    simp [Product.deserialize, fullBody, getField, readStr, readPrice, readBool,
      categoryFromName, hc]
  refine ⟨hid, ?_, ?_⟩
  · simp [update_products, check_content_type, hfind, hde]
  · have h2 := find_update_eq st.products pid prod
      { id := prod.id, name := n, description := d, price := pr,
        available := av, category := c } hfind (by simp [hid])
    simp only [Store.update, Store.find]
    exact h2

/-- C5 witness: replacing every field of sample product 2 via the update
handler answers 200 with the new field values under the same id, and
the store persists them. -/
theorem update_replaces_all_fields_witness :
    sampleStore.find 2 = some sampleUnavail ∧
    ("TOOLS" : String) ∈ categoryNames ∧
    (sampleUnavail.id = 2 ∧
     update_products 2 (some "application/json")
         (fullBody "pan" "small pan" "7.50" true "TOOLS") sampleStore
       = Except.ok
           (Response.obj
             (Product.serialize
               { id := sampleUnavail.id, name := "pan",
                 description := "small pan", price := "7.50",
                 available := true, category := "TOOLS" }) 200,
            sampleStore.update
              { id := sampleUnavail.id, name := "pan",
                description := "small pan", price := "7.50",
                available := true, category := "TOOLS" }) ∧
     (sampleStore.update
         { id := sampleUnavail.id, name := "pan", description := "small pan",
           price := "7.50", available := true, category := "TOOLS" }).find 2
       = some
           { id := sampleUnavail.id, name := "pan", description := "small pan",
             price := "7.50", available := true, category := "TOOLS" }) :=
  ⟨by decide, by decide,
   update_replaces_all_fields 2 sampleStore sampleUnavail "pan" "small pan"
     "7.50" true "TOOLS" (by decide) (by decide)⟩

/-- C1 counterexample: with all three query parameters supplied (name as
the empty string, category as the non-enumerated name `BOGUS`, available
as `true`), the handler neither applies the name filter — the claimed
first-precedence outcome, which on this store would be an empty 200
array — nor returns HTTP 200 at all: the category branch is taken and
its lookup raises an unhandled error. -/
theorem list_precedence_cex :
    list_products (some "") (some "BOGUS") (some "true") (Store.mk [] 1)
      = Except.error Failure.unhandled ∧
    list_products (some "") (some "BOGUS") (some "true") (Store.mk [] 1)
      ≠ Except.ok (Response.arr
          (((Store.mk [] 1).find_by_name "").map Product.serialize) 200) :=
  ⟨rfl, fun h => Except.noConfusion h⟩

/-- C1 (amended): among the query parameters supplied with a non-empty
value, exactly one filter applies, with precedence name first, then
category, then available (parameters supplied with an empty value are
treated as absent); with no effective parameter every persisted Product
is returned; the response is HTTP 200 except when the applied category
filter does not name an enumerated value, in which case the lookup
error propagates unhandled. -/
theorem list_filter_precedence (n c a : Option String) (st : Store) :
    (∀ s, n = some s → s ≠ "" →
      list_products n c a st
        = Except.ok (Response.arr
            ((st.find_by_name s).map Product.serialize) 200)) ∧
    (truthy n = false → ∀ s, c = some s → s ≠ "" →
      (∀ cat, categoryFromName s = some cat →
        list_products n c a st
          = Except.ok (Response.arr
              ((st.find_by_category cat).map Product.serialize) 200)) ∧
      (categoryFromName s = none →
        list_products n c a st = Except.error Failure.unhandled)) ∧
    (truthy n = false → truthy c = false → ∀ s, a = some s → s ≠ "" →
      list_products n c a st
        = Except.ok (Response.arr
            ((st.find_by_availability s).map Product.serialize) 200)) ∧
    (truthy n = false → truthy c = false → truthy a = false →
      list_products n c a st
        = Except.ok (Response.arr (st.all.map Product.serialize) 200)) := by
  have hts : ∀ s : String, s ≠ "" → truthy (some s) = true := by
    intro s hs; simp [truthy, hs]
  refine ⟨?_, ?_, ?_, ?_⟩
  · rintro s rfl hs
    simp [list_products, hts s hs]
  · intro hn s hc hs
    subst hc
    refine ⟨fun cat hcat => ?_, fun hcat => ?_⟩ <;>
      simp [list_products, hn, hts s hs, hcat]
  · intro hn hc s ha hs
    subst ha
    simp [list_products, hn, hc, hts s hs]
  · intro hn hc ha
    simp [list_products, hn, hc, ha]

/-- C1 witness: with a non-empty name supplied alongside a category, the
name filter alone determines the response. -/
theorem list_filter_precedence_witness :
    ("hat" : String) ≠ "" ∧
    list_products (some "hat") (some "BOGUS") none sampleStore
      = Except.ok (Response.arr
          ((sampleStore.find_by_name "hat").map Product.serialize) 200) :=
  ⟨by decide,
   (list_filter_precedence (some "hat") (some "BOGUS") none sampleStore).1
     "hat" rfl (by decide)⟩

/-- C2 counterexample: a list request carrying the available parameter
with the empty-string value returns every persisted Product of the
sample store — which is neither the available subset nor the unavailable
subset — because the handler skips the filter on a falsy parameter. -/
theorem list_empty_available_cex :
    list_products none none (some "") sampleStore
      = Except.ok (Response.arr
          (sampleStore.products.map Product.serialize) 200) ∧
    sampleStore.products.map Product.serialize
      ≠ (sampleStore.products.filter (fun p => p.available == true)).map
          Product.serialize ∧
    sampleStore.products.map Product.serialize
      ≠ (sampleStore.products.filter (fun p => p.available == false)).map
          Product.serialize :=
  ⟨rfl, by decide, by decide⟩

/-- C2 (amended): for every list request whose only effective query
parameter is a non-empty available value, the supplied string is coerced
to a boolean and the handler answers HTTP 200 with exactly the persisted
Products whose availability flag matches that boolean; in particular the
coercion sends `"true"` to true and `"false"` to false, so
`available=true` yields exactly the available Products and
`available=false` exactly the unavailable ones.  An empty available
value applies no filter. -/
theorem list_by_availability (s : String) (st : Store) (hs : s ≠ "") :
    list_products none none (some s) st
      = Except.ok (Response.arr
          ((st.products.filter (fun p => p.available == boolishCoerce s)).map
            Product.serialize) 200) ∧
    boolishCoerce "true" = true ∧ boolishCoerce "false" = false := by
  have hts : truthy (some s) = true := by simp [truthy, hs]
  have hn0 : truthy none = false := rfl
  refine ⟨?_, rfl, rfl⟩
  simp [list_products, hn0, hts, Store.find_by_availability]

/-- C2 witness: `available=true` on the sample store returns exactly its
available products. -/
theorem list_by_availability_witness :
    ("true" : String) ≠ "" ∧
    (list_products none none (some "true") sampleStore
       = Except.ok (Response.arr
           ((sampleStore.products.filter
               (fun p => p.available == boolishCoerce "true")).map
             Product.serialize) 200) ∧
     boolishCoerce "true" = true ∧ boolishCoerce "false" = false) :=
  ⟨by decide, list_by_availability "true" sampleStore (by decide)⟩

/-- C9 counterexample: the empty string does not name an enumerated
category value, yet a list request supplying it as the category
parameter answers HTTP 200 with every persisted Product: the truthiness
test skips the category lookup entirely, so no error is raised. -/
theorem list_empty_category_cex :
    categoryFromName "" = none ∧
    list_products none (some "") none sampleStore
      = Except.ok (Response.arr
          (sampleStore.products.map Product.serialize) 200) :=
  ⟨by decide, rfl⟩

/-- C9 (amended): for every list request handled by the category filter
(no effective name parameter) whose category parameter is non-empty and
does not name one of the enumerated category values, the handler does
not return HTTP 200: the lookup failure is not locally guarded and
propagates as an unhandled error. -/
theorem list_invalid_category_error (n a : Option String) (c : String)
    (st : Store) (hn : truthy n = false) (hce : c ≠ "")
    (hcv : c ∉ categoryNames) :
    list_products n (some c) a st = Except.error Failure.unhandled := by
  have hts : truthy (some c) = true := by simp [truthy, hce]
  have hcf : categoryFromName c = none := by simp [categoryFromName, hcv]
  simp [list_products, hn, hts, hcf]

/-- C9 witness: `category=BOGUS` on the sample store propagates as an
unhandled error. -/
theorem list_invalid_category_error_witness :
    truthy none = false ∧ ("BOGUS" : String) ≠ "" ∧
    ("BOGUS" : String) ∉ categoryNames ∧
    list_products none (some "BOGUS") none sampleStore
      = Except.error Failure.unhandled :=
  ⟨rfl, by decide, by decide,
   list_invalid_category_error none none "BOGUS" sampleStore rfl (by decide)
     (by decide)⟩
